import Mathlib

/-!
Verification of the exoplanet analysis program (`Exoplanet.py`).

The program's numeric core is embedded shallowly over the real numbers:
pure numeric functions become Lean functions on `ℝ`, tabular rows become a
structure whose numeric cells are `Option ℝ` (with `none` playing the role
of a missing value / NaN after `pd.to_numeric(errors='coerce')`, so a
comparison against `none` is false, as IEEE comparisons against NaN are),
and the fallible HTTP fetch becomes a total function from an explicit
transport outcome to the pair (returned table, displayed error message).
-/

namespace Exoplanet

open Real

noncomputable section

/-- Gravitational constant `G.value` from `astropy.constants` (CODATA 2018
value, in m^3 kg^-1 s^-2), used at line 84 of the source. -/
def G_const : ℝ := 6.6743e-11

/-- Kilograms in one Earth mass: the `astropy` constant `u.M_earth`
used by the conversion `(planet_mass * u.M_earth).to(u.kg).value`. -/
def M_earth_kg : ℝ := 5.972167867791379e24

/-- Kilograms in one solar mass: the `astropy` constant `u.M_sun`
used by the conversion `(star_mass * u.M_sun).to(u.kg).value`. -/
def M_sun_kg : ℝ := 1.988409870698051e30

/-- Seconds in one day: the conversion `(1 * u.day).to(u.second)`. -/
def day_seconds : ℝ := 86400

/-- Lines 78-91 of the source: `calculate_radial_velocity`.  Converts the
planet mass to kilograms, the star mass to kilograms and the period to
seconds, then computes
`K = ((2 π G) / P)^(1/3) * M_p / M_*^(2/3) / sqrt(1 - e^2)`. -/
def calculate_radial_velocity (planet_mass star_mass orbital_period eccentricity : ℝ) : ℝ :=
  let orbital_period_s := orbital_period * day_seconds
  let planet_mass_kg := planet_mass * M_earth_kg
  let star_mass_kg := star_mass * M_sun_kg
  ((2 * π * G_const) / orbital_period_s) ^ ((1 : ℝ) / 3) * planet_mass_kg /
    (star_mass_kg ^ ((2 : ℝ) / 3)) / Real.sqrt (1 - eccentricity ^ 2)

/-- Lines 95-98 of the source: `generate_radial_velocity_curve`.
`np.linspace(0, time_span, 1000)` produces the 1000 points
`time_span * i / 999` for `i = 0, …, 999`; the velocity array applies
`K * sin(2 π t / P)` pointwise. -/
def generate_radial_velocity_curve (K P time_span : ℝ) : List ℝ × List ℝ :=
  let time := (List.range 1000).map (fun (i : ℕ) => time_span * (i : ℝ) / 999)
  let velocity := time.map (fun t => K * Real.sin (2 * π * t / P))
  (time, velocity)

/-- Lines 100-111 of the source: `calculate_habitable_zone`, with the
two-element coefficient arrays of the source (index 0 = inner edge,
index 1 = outer edge). -/
def calculate_habitable_zone (star_teff : ℝ) : ℝ × ℝ :=
  let S_eff_sun : Fin 2 → ℝ := ![1.776, 0.320]
  let a : Fin 2 → ℝ := ![0.013, 0.094]
  let b : Fin 2 → ℝ := ![2.04e-4, 1.73e-4]
  let c : Fin 2 → ℝ := ![-2.89e-8, -5.44e-9]
  let T_star := star_teff
  let T_sun : ℝ := 5778
  let L := (star_teff / T_sun) ^ 4
  let r_inner := Real.sqrt (L /
    (S_eff_sun 0 + a 0 * (T_star - T_sun) + b 0 * (T_star - T_sun) ^ 2 +
      c 0 * (T_star - T_sun) ^ 3))
  let r_outer := Real.sqrt (L /
    (S_eff_sun 1 + a 1 * (T_star - T_sun) + b 1 * (T_star - T_sun) ^ 2 +
      c 1 * (T_star - T_sun) ^ 3))
  (r_inner, r_outer)

/-- The inner-edge (recent-Venus) `Seff` polynomial exactly as the spec
writes it: `S₀ + a·ΔT + b·ΔT² + c·ΔT³` with `ΔT = T − 5778` and the
inner coefficient set. -/
def specSeffInner (T : ℝ) : ℝ :=
  1.776 + 0.013 * (T - 5778) + 2.04e-4 * (T - 5778) ^ 2 + (-2.89e-8) * (T - 5778) ^ 3

/-- The outer-edge (early-Mars) `Seff` polynomial exactly as the spec
writes it, with the outer coefficient set. -/
def specSeffOuter (T : ℝ) : ℝ :=
  0.320 + 0.094 * (T - 5778) + 1.73e-4 * (T - 5778) ^ 2 + (-5.44e-9) * (T - 5778) ^ 3

/-- The stellar luminosity in solar units as the spec writes it:
`L = (T / 5778)⁴`. -/
def specLuminosity (T : ℝ) : ℝ := (T / 5778) ^ 4

/-- One catalog row after the `pd.to_numeric(errors='coerce')` pass:
each numeric cell is either a real value or missing (NaN). -/
structure RawRow where
  pl_name : String
  hostname : String
  pl_bmasse : Option ℝ
  pl_orbper : Option ℝ
  pl_orbsmax : Option ℝ
  pl_orbeccen : Option ℝ
  st_mass : Option ℝ
  st_teff : Option ℝ
  pl_rade : Option ℝ

/-- Comparison of two possibly-missing floats, with IEEE NaN semantics:
any comparison involving a missing value (NaN) is false. -/
def nanle : Option ℝ → Option ℝ → Bool
  | some x, some y => decide (x ≤ y)
  | _, _ => false

/-- Line 68 of the source: `df.dropna(subset=['pl_bmasse', 'pl_orbper',
'pl_orbsmax', 'st_mass'])` — drops the rows missing any of those four
columns, keeping input order. -/
def dropna_fetch (df : List RawRow) : List RawRow :=
  df.filter (fun r =>
    r.pl_bmasse.isSome && r.pl_orbper.isSome && r.pl_orbsmax.isSome && r.st_mass.isSome)

/-- Line 128 of the source: the sidebar `dropna`, whose subset adds
`pl_orbeccen` to the four columns of the ingestion `dropna`. -/
def dropna_sidebar (df : List RawRow) : List RawRow :=
  df.filter (fun r =>
    r.pl_bmasse.isSome && r.pl_orbper.isSome && r.pl_orbsmax.isSome &&
      r.pl_orbeccen.isSome && r.st_mass.isSome)

/-- Transport outcome of the single HTTP request of
`fetch_exoplanet_data`: either a response (status code plus the result of
parsing and framing the body, `Except.error` when `response.json()` or the
subsequent processing raises), or a raised `requests.exceptions.RequestException`
(timeout, connection error). -/
inductive FetchOutcome where
  | response (status : ℕ) (body : Except String (List RawRow))
  | requestError (msg : String)

/-- Lines 27-75 of the source: `fetch_exoplanet_data`, as a total function
from the transport outcome to the pair (returned value, message shown via
`st.error`).  A `RequestException` is caught and reported; a parse or
processing exception is caught and reported; a 200 response is coerced and
passed through the ingestion `dropna`; any other status code skips the
`if` body and falls off the end of the function, returning `None` with no
message. -/
def fetch_exoplanet_data : FetchOutcome → Option (List RawRow) × Option String
  | .requestError msg => (none, some ("Error fetching data: " ++ msg))
  | .response status body =>
    if status = 200 then
      match body with
      | .ok rows => (some (dropna_fetch rows), none)
      | .error msg => (none, some ("Error processing data: " ++ msg))
    else (none, none)

/-- Line 151 of the source: the sidebar mass/period filter
`df[(df['pl_bmasse'] >= min_mass) & (df['pl_bmasse'] <= max_mass) &
(df['pl_orbper'] >= min_period) & (df['pl_orbper'] <= max_period)]`. -/
def filtered_df (df : List RawRow) (min_mass max_mass min_period max_period : ℝ) :
    List RawRow :=
  df.filter (fun r =>
    nanle (some min_mass) r.pl_bmasse && nanle r.pl_bmasse (some max_mass) &&
      nanle (some min_period) r.pl_orbper && nanle r.pl_orbper (some max_period))

/-- Lines 273-275 of the source: the per-row habitable-zone columns
`hz_inner`, `hz_outer`, obtained by applying `calculate_habitable_zone` to
`st_teff`.  A missing (NaN) temperature propagates through the arithmetic
to NaN boundaries. -/
def hz_of (r : RawRow) : Option ℝ × Option ℝ :=
  match r.st_teff with
  | none => (none, none)
  | some t => (some (calculate_habitable_zone t).1, some (calculate_habitable_zone t).2)

/-- Line 277 of the source: the membership flag
`row['hz_inner'] <= row['pl_orbsmax'] <= row['hz_outer']` (a Python
chained comparison, i.e. the conjunction of the two comparisons, each
false when either side is NaN). -/
def in_hz (r : RawRow) : Bool :=
  nanle (hz_of r).1 r.pl_orbsmax && nanle r.pl_orbsmax (hz_of r).2

/-- Line 279 of the source: `habitable_exoplanets = df[df['in_hz']]` —
the habitable-zone view, filtered from the fetched table by the membership
flag alone. -/
def habitable_exoplanets (df : List RawRow) : List RawRow :=
  df.filter (fun r => in_hz r)

/-- A concrete row whose stellar temperature is missing but whose four
ingestion-required columns are present. -/
def rowNoTeff : RawRow :=
  ⟨"X-1 b", "X-1", some 1, some 10, some 0.1, some 0, some 1, none, none⟩

/-- A concrete Earth-Sun-like row with every column present. -/
def rowSunlike : RawRow :=
  ⟨"Earth", "Sun", some 1, some 365.25, some 1, some 0, some 1, some 5778, some 1⟩

end

/-- Unfolding of `calculate_habitable_zone` into the spec's luminosity and
`Seff` polynomials. -/
theorem hz_eq (T : ℝ) :
    calculate_habitable_zone T =
      (Real.sqrt (specLuminosity T / specSeffInner T),
       Real.sqrt (specLuminosity T / specSeffOuter T)) := by
  simp only [calculate_habitable_zone, specLuminosity, specSeffInner, specSeffOuter,
    Matrix.cons_val_zero, Matrix.cons_val_one, Matrix.head_cons]

/-- C1 fails as stated: at the star temperature 5798 K both `Seff`
polynomial values are strictly positive, yet the returned pair has
`innerAU > outerAU` (the outer-edge polynomial overtakes the inner-edge
one just above the solar temperature, because of the large outer linear
coefficient 0.094). -/
theorem C1_counterexample :
    0 < specSeffInner 5798 ∧ 0 < specSeffOuter 5798 ∧
      ¬ ((calculate_habitable_zone 5798).1 < (calculate_habitable_zone 5798).2) := by
  have h1 : specSeffInner 5798 = 2.1173688 := by norm_num [specSeffInner]
  have h2 : specSeffOuter 5798 = 2.26915648 := by norm_num [specSeffOuter]
  refine ⟨by rw [h1]; norm_num, by rw [h2]; norm_num, ?_⟩
  rw [hz_eq, not_lt]
  apply Real.sqrt_le_sqrt
  rw [h1, h2, specLuminosity]
  rw [div_le_div_iff₀ (by norm_num) (by norm_num)]
  norm_num

/-- C1 (amended): for every star temperature `T > 0` such that both
Kopparapu `Seff` polynomial values are strictly positive and the
outer-edge value is strictly below the inner-edge value,
`habitableZone(T)` returns a pair with `innerAU < outerAU`. -/
theorem C1_hz_inner_lt_outer (T : ℝ) (hT : 0 < T)
    (hin : 0 < specSeffInner T) (hout : 0 < specSeffOuter T)
    (hlt : specSeffOuter T < specSeffInner T) :
    (calculate_habitable_zone T).1 < (calculate_habitable_zone T).2 := by
  rw [hz_eq]
  have hL : 0 < specLuminosity T := by
    rw [specLuminosity]
    positivity
  exact Real.sqrt_lt_sqrt (le_of_lt (div_pos hL hin))
    (div_lt_div_of_pos_left hL hout hlt)

/-- Witness for C1 (amended) at the solar temperature 5778 K. -/
theorem C1_hz_inner_lt_outer_witness :
    (0 : ℝ) < 5778 ∧ 0 < specSeffInner 5778 ∧ 0 < specSeffOuter 5778 ∧
      specSeffOuter 5778 < specSeffInner 5778 ∧
      (calculate_habitable_zone 5778).1 < (calculate_habitable_zone 5778).2 :=
  ⟨by norm_num, by norm_num [specSeffInner], by norm_num [specSeffOuter],
    by norm_num [specSeffInner, specSeffOuter],
    C1_hz_inner_lt_outer 5778 (by norm_num) (by norm_num [specSeffInner])
      (by norm_num [specSeffOuter]) (by norm_num [specSeffInner, specSeffOuter])⟩

/-- C3: for every star temperature `T > 0`, `habitableZone(T)` is the pair
`(sqrt(L/Seff_inner), sqrt(L/Seff_outer))` with `L = (T/5778)⁴` and the
fixed coefficient sets of the spec; and at the solar temperature 5778 K
the returned boundaries are within 0.005 of (0.75 AU, 1.77 AU). -/
theorem C3_habitable_zone_formula :
    (∀ T : ℝ, 0 < T →
      calculate_habitable_zone T =
        (Real.sqrt (specLuminosity T / specSeffInner T),
         Real.sqrt (specLuminosity T / specSeffOuter T))) ∧
    0.745 < (calculate_habitable_zone 5778).1 ∧
      (calculate_habitable_zone 5778).1 < 0.755 ∧
    1.765 < (calculate_habitable_zone 5778).2 ∧
      (calculate_habitable_zone 5778).2 < 1.775 := by
  have hval : calculate_habitable_zone 5778 =
      (Real.sqrt (1 / 1.776), Real.sqrt (1 / 0.320)) := by
    rw [hz_eq]
    norm_num [specLuminosity, specSeffInner, specSeffOuter]
  refine ⟨fun T _ => hz_eq T, ?_, ?_, ?_, ?_⟩
  · rw [hval]
    rw [show (0.745 : ℝ) < Real.sqrt (1 / 1.776) ↔ (0.745 : ℝ) ^ 2 < 1 / 1.776 from
      Real.lt_sqrt (by norm_num)]
    norm_num
  · rw [hval]
    rw [show Real.sqrt (1 / 1.776) < (0.755 : ℝ) ↔ (1 : ℝ) / 1.776 < 0.755 ^ 2 from
      Real.sqrt_lt' (by norm_num)]
    norm_num
  · rw [hval]
    rw [show (1.765 : ℝ) < Real.sqrt (1 / 0.320) ↔ (1.765 : ℝ) ^ 2 < 1 / 0.320 from
      Real.lt_sqrt (by norm_num)]
    norm_num
  · rw [hval]
    rw [show Real.sqrt (1 / 0.320) < (1.775 : ℝ) ↔ (1 : ℝ) / 0.320 < 1.775 ^ 2 from
      Real.sqrt_lt' (by norm_num)]
    norm_num

/-- Witness for C3 at the solar temperature 5778 K. -/
theorem C3_habitable_zone_formula_witness :
    (0 : ℝ) < 5778 ∧
      calculate_habitable_zone 5778 =
        (Real.sqrt (specLuminosity 5778 / specSeffInner 5778),
         Real.sqrt (specLuminosity 5778 / specSeffOuter 5778)) :=
  ⟨by norm_num, C3_habitable_zone_formula.1 5778 (by norm_num)⟩

/-- Cubing undoes the real exponent `1/3` on a nonnegative base. -/
theorem rpow_third_cube (x : ℝ) (hx : 0 ≤ x) :
    (x ^ ((1 : ℝ) / 3)) ^ (3 : ℕ) = x := by
  rw [← Real.rpow_natCast (x ^ ((1 : ℝ) / 3)) 3, ← Real.rpow_mul hx,
    (show (1 : ℝ) / 3 * ((3 : ℕ) : ℝ) = (1 : ℝ) by norm_num), Real.rpow_one]

/-- Cubing turns the real exponent `2/3` into squaring on a nonnegative base. -/
theorem rpow_two_thirds_cube (x : ℝ) (hx : 0 ≤ x) :
    (x ^ ((2 : ℝ) / 3)) ^ (3 : ℕ) = x ^ (2 : ℕ) := by
  rw [← Real.rpow_natCast (x ^ ((2 : ℝ) / 3)) 3, ← Real.rpow_mul hx,
    (show (2 : ℝ) / 3 * ((3 : ℕ) : ℝ) = ((2 : ℕ) : ℝ) by norm_num), Real.rpow_natCast]

/-- With eccentricity 0 the radial-velocity amplitude reduces to the
eccentricity-free formula (the `sqrt(1 - 0²) = 1` factor drops out). -/
theorem crv_zero_ecc (m M P : ℝ) :
    calculate_radial_velocity m M P 0 =
      ((2 * π * G_const) / (P * day_seconds)) ^ ((1 : ℝ) / 3) * (m * M_earth_kg) /
        ((M * M_sun_kg) ^ ((2 : ℝ) / 3)) := by
  simp only [calculate_radial_velocity]
  norm_num [Real.sqrt_one]

/-- The Earth-mass constant is positive. -/
theorem M_earth_kg_pos : (0 : ℝ) < M_earth_kg := by
  simp only [M_earth_kg]; norm_num

/-- The solar-mass constant is positive. -/
theorem M_sun_kg_pos : (0 : ℝ) < M_sun_kg := by
  simp only [M_sun_kg]; norm_num

/-- The gravitational constant is positive. -/
theorem G_const_pos : (0 : ℝ) < G_const := by
  simp only [G_const]; norm_num

/-- The day-to-second conversion factor is positive. -/
theorem day_seconds_pos : (0 : ℝ) < day_seconds := by
  simp only [day_seconds]; norm_num

/-- C2: for all positive masses and period and eccentricity in `[0, 1)`,
`amplitude(m, M, P, e)` equals
`(2π·G/P_seconds)^(1/3) · M_planet_kg / M_star_kg^(2/3) / sqrt(1 − e²)`
after the Earth-mass, solar-mass and day-to-second conversions; and the
Earth-Sun analog `amplitude(1, 1, 365.25, 0)` lies in `(0.088, 0.090)`,
i.e. is ≈ 0.089 m/s. -/
theorem C2_amplitude_formula :
    (∀ m M P e : ℝ, 0 < m → 0 < M → 0 < P → 0 ≤ e → e < 1 →
      calculate_radial_velocity m M P e =
        ((2 * π * G_const) / (P * day_seconds)) ^ ((1 : ℝ) / 3) * (m * M_earth_kg) /
          ((M * M_sun_kg) ^ ((2 : ℝ) / 3)) / Real.sqrt (1 - e ^ 2)) ∧
    0.088 < calculate_radial_velocity 1 1 365.25 0 ∧
      calculate_radial_velocity 1 1 365.25 0 < 0.090 := by
  have hbase : (0 : ℝ) < (2 * π * G_const) / (365.25 * day_seconds) :=
    div_pos (mul_pos (mul_pos two_pos Real.pi_pos) G_const_pos)
      (mul_pos (by norm_num) day_seconds_pos)
  have hK : calculate_radial_velocity 1 1 365.25 0 =
      ((2 * π * G_const) / (365.25 * day_seconds)) ^ ((1 : ℝ) / 3) * M_earth_kg /
        (M_sun_kg ^ ((2 : ℝ) / 3)) := by
    rw [crv_zero_ecc, one_mul, one_mul]
  have hKpos : 0 < calculate_radial_velocity 1 1 365.25 0 := by
    rw [hK]
    exact div_pos (mul_pos (Real.rpow_pos_of_pos hbase _) M_earth_kg_pos)
      (Real.rpow_pos_of_pos M_sun_kg_pos _)
  have hcube : (calculate_radial_velocity 1 1 365.25 0) ^ (3 : ℕ) =
      (2 * π * G_const) / (365.25 * day_seconds) * M_earth_kg ^ (3 : ℕ) /
        M_sun_kg ^ (2 : ℕ) := by
    rw [hK, div_pow, mul_pow, rpow_third_cube _ hbase.le,
      rpow_two_thirds_cube _ M_sun_kg_pos.le]
  have hC : (0 : ℝ) <
      2 * G_const / (365.25 * day_seconds) * M_earth_kg ^ 3 / M_sun_kg ^ 2 := by
    simp only [G_const, day_seconds, M_earth_kg, M_sun_kg]
    norm_num
  have hlow : (0.088 : ℝ) ^ 3 < (calculate_radial_velocity 1 1 365.25 0) ^ 3 := by
    rw [hcube]
    calc (0.088 : ℝ) ^ 3
        < 3.141592 * (2 * G_const / (365.25 * day_seconds) * M_earth_kg ^ 3 /
            M_sun_kg ^ 2) := by
          simp only [G_const, day_seconds, M_earth_kg, M_sun_kg]
          norm_num
      _ < π * (2 * G_const / (365.25 * day_seconds) * M_earth_kg ^ 3 /
            M_sun_kg ^ 2) := mul_lt_mul_of_pos_right Real.pi_gt_d6 hC
      _ = (2 * π * G_const) / (365.25 * day_seconds) * M_earth_kg ^ (3 : ℕ) /
            M_sun_kg ^ (2 : ℕ) := by ring
  have hhigh : (calculate_radial_velocity 1 1 365.25 0) ^ 3 < (0.090 : ℝ) ^ 3 := by
    rw [hcube]
    calc (2 * π * G_const) / (365.25 * day_seconds) * M_earth_kg ^ (3 : ℕ) /
            M_sun_kg ^ (2 : ℕ)
        = π * (2 * G_const / (365.25 * day_seconds) * M_earth_kg ^ 3 /
            M_sun_kg ^ 2) := by ring
      _ < 3.141593 * (2 * G_const / (365.25 * day_seconds) * M_earth_kg ^ 3 /
            M_sun_kg ^ 2) := mul_lt_mul_of_pos_right Real.pi_lt_d6 hC
      _ < (0.090 : ℝ) ^ 3 := by
          simp only [G_const, day_seconds, M_earth_kg, M_sun_kg]
          norm_num
  refine ⟨fun m M P e _ _ _ _ _ => rfl, ?_, ?_⟩
  · by_contra hcon
    push_neg at hcon
    have := pow_le_pow_left₀ hKpos.le hcon 3
    linarith
  · by_contra hcon
    push_neg at hcon
    have := pow_le_pow_left₀ (by norm_num : (0 : ℝ) ≤ 0.090) hcon 3
    linarith

/-- Witness for C2 at the Earth-Sun analog input. -/
theorem C2_amplitude_formula_witness :
    (0 : ℝ) < 1 ∧ (0 : ℝ) < 365.25 ∧ (0 : ℝ) ≤ 0 ∧ (0 : ℝ) < 1 ∧
      calculate_radial_velocity 1 1 365.25 0 =
        ((2 * π * G_const) / (365.25 * day_seconds)) ^ ((1 : ℝ) / 3) *
          (1 * M_earth_kg) / ((1 * M_sun_kg) ^ ((2 : ℝ) / 3)) /
            Real.sqrt (1 - 0 ^ 2) :=
  ⟨by norm_num, by norm_num, le_refl 0, by norm_num,
    C2_amplitude_formula.1 1 1 365.25 0 (by norm_num) (by norm_num) (by norm_num)
      (le_refl 0) (by norm_num)⟩

/-- C8: with eccentricity 0 and the other arguments held fixed over
strictly positive inputs, the amplitude is strictly increasing in the
planet mass and strictly decreasing in the star mass and in the orbital
period. -/
theorem C8_amplitude_monotonic :
    (∀ m₁ m₂ M P : ℝ, 0 < m₁ → m₁ < m₂ → 0 < M → 0 < P →
      calculate_radial_velocity m₁ M P 0 < calculate_radial_velocity m₂ M P 0) ∧
    (∀ m M₁ M₂ P : ℝ, 0 < m → 0 < M₁ → M₁ < M₂ → 0 < P →
      calculate_radial_velocity m M₂ P 0 < calculate_radial_velocity m M₁ P 0) ∧
    (∀ m M P₁ P₂ : ℝ, 0 < m → 0 < M → 0 < P₁ → P₁ < P₂ →
      calculate_radial_velocity m M P₂ 0 < calculate_radial_velocity m M P₁ 0) := by
  refine ⟨?_, ?_, ?_⟩
  · intro m₁ m₂ M P hm₁ h12 hM hP
    rw [crv_zero_ecc, crv_zero_ecc]
    have hbase : (0 : ℝ) < (2 * π * G_const) / (P * day_seconds) :=
      div_pos (mul_pos (mul_pos two_pos Real.pi_pos) G_const_pos)
        (mul_pos hP day_seconds_pos)
    have hB : (0 : ℝ) < (M * M_sun_kg) ^ ((2 : ℝ) / 3) :=
      Real.rpow_pos_of_pos (mul_pos hM M_sun_kg_pos) _
    refine (div_lt_div_iff_of_pos_right hB).mpr ?_
    exact mul_lt_mul_of_pos_left (mul_lt_mul_of_pos_right h12 M_earth_kg_pos)
      (Real.rpow_pos_of_pos hbase _)
  · intro m M₁ M₂ P hm hM₁ hMM hP
    rw [crv_zero_ecc, crv_zero_ecc]
    have hbase : (0 : ℝ) < (2 * π * G_const) / (P * day_seconds) :=
      div_pos (mul_pos (mul_pos two_pos Real.pi_pos) G_const_pos)
        (mul_pos hP day_seconds_pos)
    have hB₁ : (0 : ℝ) < (M₁ * M_sun_kg) ^ ((2 : ℝ) / 3) :=
      Real.rpow_pos_of_pos (mul_pos hM₁ M_sun_kg_pos) _
    have hBlt : (M₁ * M_sun_kg) ^ ((2 : ℝ) / 3) < (M₂ * M_sun_kg) ^ ((2 : ℝ) / 3) :=
      Real.rpow_lt_rpow (mul_pos hM₁ M_sun_kg_pos).le
        (mul_lt_mul_of_pos_right hMM M_sun_kg_pos) (by norm_num)
    exact div_lt_div_of_pos_left
      (mul_pos (Real.rpow_pos_of_pos hbase _) (mul_pos hm M_earth_kg_pos)) hB₁ hBlt
  · intro m M P₁ P₂ hm hM hP₁ hPP
    rw [crv_zero_ecc, crv_zero_ecc]
    have hb₂ : (0 : ℝ) < (2 * π * G_const) / (P₂ * day_seconds) :=
      div_pos (mul_pos (mul_pos two_pos Real.pi_pos) G_const_pos)
        (mul_pos (hP₁.trans hPP) day_seconds_pos)
    have hblt : (2 * π * G_const) / (P₂ * day_seconds) <
        (2 * π * G_const) / (P₁ * day_seconds) :=
      div_lt_div_of_pos_left (mul_pos (mul_pos two_pos Real.pi_pos) G_const_pos)
        (mul_pos hP₁ day_seconds_pos) (mul_lt_mul_of_pos_right hPP day_seconds_pos)
    have hAlt : ((2 * π * G_const) / (P₂ * day_seconds)) ^ ((1 : ℝ) / 3) <
        ((2 * π * G_const) / (P₁ * day_seconds)) ^ ((1 : ℝ) / 3) :=
      Real.rpow_lt_rpow hb₂.le hblt (by norm_num)
    have hB : (0 : ℝ) < (M * M_sun_kg) ^ ((2 : ℝ) / 3) :=
      Real.rpow_pos_of_pos (mul_pos hM M_sun_kg_pos) _
    exact (div_lt_div_iff_of_pos_right hB).mpr
      (mul_lt_mul_of_pos_right hAlt (mul_pos hm M_earth_kg_pos))

/-- Witness for C8: doubling the planet mass of the Earth-Sun analog
strictly increases the amplitude. -/
theorem C8_amplitude_monotonic_witness :
    (0 : ℝ) < 1 ∧ (1 : ℝ) < 2 ∧ (0 : ℝ) < 365.25 ∧
      calculate_radial_velocity 1 1 365.25 0 < calculate_radial_velocity 2 1 365.25 0 :=
  ⟨by norm_num, by norm_num, by norm_num,
    C8_amplitude_monotonic.1 1 2 1 365.25 (by norm_num) (by norm_num) (by norm_num)
      (by norm_num)⟩

/-- The time component of the generated curve, unfolded. -/
theorem curve_time_def (K P ts : ℝ) :
    (generate_radial_velocity_curve K P ts).1 =
      (List.range 1000).map (fun (i : ℕ) => ts * (i : ℝ) / 999) := by
  simp only [generate_radial_velocity_curve]

/-- The velocity component of the generated curve, unfolded. -/
theorem curve_velocity_def (K P ts : ℝ) :
    (generate_radial_velocity_curve K P ts).2 =
      ((List.range 1000).map (fun (i : ℕ) => ts * (i : ℝ) / 999)).map
        (fun t => K * Real.sin (2 * π * t / P)) := by
  simp only [generate_radial_velocity_curve]

/-- Index formula for the time samples of the generated curve. -/
theorem curve_time_get (K P ts : ℝ) (i : ℕ) (hi : i < 1000) :
    (generate_radial_velocity_curve K P ts).1[i]? = some (ts * (i : ℝ) / 999) := by
  rw [curve_time_def, List.getElem?_map,
    (show (List.range 1000)[i]? = some i by simp [List.getElem?_range, hi])]
  rfl

/-- Index formula for the velocity samples of the generated curve. -/
theorem curve_velocity_get (K P ts : ℝ) (i : ℕ) (hi : i < 1000) :
    (generate_radial_velocity_curve K P ts).2[i]? =
      some (K * Real.sin (2 * π * (ts * (i : ℝ) / 999) / P)) := by
  rw [curve_velocity_def, List.getElem?_map, List.getElem?_map,
    (show (List.range 1000)[i]? = some i by simp [List.getElem?_range, hi])]
  rfl

/-- C4: for every amplitude `K`, period `P > 0` and time span `ts > 0`,
the generated curve has exactly 1000 samples; sample `i` has time
`ts·i/999` and velocity `K·sin(2π·t/P)` at that time; the first time is 0
and the last is `ts`, with every time inside `[0, ts]`; consecutive times
are `ts/999` apart; and `velocity(0) = 0`.  Purity (identical inputs give
the identical sequence) is inherent: the embedding is a function of its
arguments alone. -/
theorem C4_velocity_curve (K P ts : ℝ) (hP : 0 < P) (hts : 0 < ts) :
    (generate_radial_velocity_curve K P ts).1.length = 1000 ∧
    (generate_radial_velocity_curve K P ts).2.length = 1000 ∧
    (∀ i : ℕ, i < 1000 →
      (generate_radial_velocity_curve K P ts).1[i]? = some (ts * (i : ℝ) / 999) ∧
      (generate_radial_velocity_curve K P ts).2[i]? =
        some (K * Real.sin (2 * π * (ts * (i : ℝ) / 999) / P))) ∧
    (generate_radial_velocity_curve K P ts).1[0]? = some 0 ∧
    (generate_radial_velocity_curve K P ts).1[999]? = some ts ∧
    (generate_radial_velocity_curve K P ts).2[0]? = some 0 ∧
    (∀ t ∈ (generate_radial_velocity_curve K P ts).1, 0 ≤ t ∧ t ≤ ts) ∧
    (∀ i : ℕ, i + 1 < 1000 →
      ∃ t₁ t₂, (generate_radial_velocity_curve K P ts).1[i]? = some t₁ ∧
        (generate_radial_velocity_curve K P ts).1[i + 1]? = some t₂ ∧
        t₂ - t₁ = ts / 999) := by
  refine ⟨?_, ?_, fun i hi => ⟨curve_time_get K P ts i hi, curve_velocity_get K P ts i hi⟩,
    ?_, ?_, ?_, ?_, ?_⟩
  · rw [curve_time_def, List.length_map, List.length_range]
  · rw [curve_velocity_def, List.length_map, List.length_map, List.length_range]
  · rw [curve_time_get K P ts 0 (by norm_num)]
    norm_num
  · rw [curve_time_get K P ts 999 (by norm_num)]
    norm_num
  · rw [curve_velocity_get K P ts 0 (by norm_num)]
    norm_num
  · intro t ht
    rw [curve_time_def] at ht
    simp only [List.mem_map, List.mem_range] at ht
    obtain ⟨i, hi, rfl⟩ := ht
    have hi999 : (i : ℝ) ≤ 999 := by
      have : i ≤ 999 := by omega
      exact_mod_cast this
    constructor
    · positivity
    · rw [div_le_iff₀ (by norm_num : (0 : ℝ) < 999)]
      calc ts * (i : ℝ) ≤ ts * 999 := by
            exact mul_le_mul_of_nonneg_left hi999 hts.le
        _ = ts * 999 := rfl
  · intro i hi
    refine ⟨ts * (i : ℝ) / 999, ts * ((i + 1 : ℕ) : ℝ) / 999,
      curve_time_get K P ts i (by omega), curve_time_get K P ts (i + 1) hi, ?_⟩
    push_cast
    ring

/-- Witness for C4 at `K = 1`, `P = 1`, time span 1. -/
theorem C4_velocity_curve_witness :
    (0 : ℝ) < 1 ∧
      (generate_radial_velocity_curve 1 1 1).1.length = 1000 ∧
      (generate_radial_velocity_curve 1 1 1).1[0]? = some 0 ∧
      (generate_radial_velocity_curve 1 1 1).1[999]? = some 1 ∧
      (generate_radial_velocity_curve 1 1 1).2[0]? = some 0 :=
  have h := C4_velocity_curve 1 1 1 (by norm_num) (by norm_num)
  ⟨by norm_num, h.1, h.2.2.2.1, h.2.2.2.2.1, h.2.2.2.2.2.1⟩

/-- C5 fails as stated: a successful fetch can return a row whose
`starEffectiveTempK` is missing, because the ingestion `dropna` subset
covers only mass, period, semi-major axis and star mass.  The concrete
row `rowNoTeff` (missing `st_teff`) survives a successful fetch. -/
theorem C5_counterexample :
    fetch_exoplanet_data (.response 200 (.ok [rowNoTeff])) = (some [rowNoTeff], none) ∧
      rowNoTeff.st_teff = none := by
  constructor
  · simp [fetch_exoplanet_data, dropna_fetch, rowNoTeff, List.filter]
  · rfl

/-- C5 (amended): rows returned by a successful fetch are exactly the
input rows with `planetMassEarth`, `orbitalPeriodDays`, `semiMajorAxisAU`
and `starMassSolar` all present; the sidebar view additionally requires
`eccentricity`; `starEffectiveTempK` (and `planetRadiusEarth`) may remain
missing. -/
theorem C5_dropna_required_fields (rows : List RawRow) (r : RawRow) :
    (r ∈ dropna_fetch rows ↔
      r ∈ rows ∧ r.pl_bmasse.isSome ∧ r.pl_orbper.isSome ∧
        r.pl_orbsmax.isSome ∧ r.st_mass.isSome) ∧
    (r ∈ dropna_sidebar rows ↔
      r ∈ rows ∧ r.pl_bmasse.isSome ∧ r.pl_orbper.isSome ∧
        r.pl_orbsmax.isSome ∧ r.pl_orbeccen.isSome ∧ r.st_mass.isSome) := by
  constructor
  · simp [dropna_fetch, List.mem_filter, and_assoc]
  · simp [dropna_sidebar, List.mem_filter, and_assoc]

/-- C6 fails as stated: a response with a non-200 status code (here 404)
makes the body of the `if` at line 57 be skipped, so the function falls
off its end and returns `None` with no `st.error` message — the Failure
carries no message. -/
theorem C6_counterexample :
    fetch_exoplanet_data (.response 404 (.ok [])) = (none, none) := by
  simp [fetch_exoplanet_data]

/-- C6 (amended): every non-success transport outcome yields a Failure
(no data is returned) and fetch never raises (it is a total function on
outcomes); a raised request exception or a malformed 200-response body
yields a Failure carrying a message, but a non-200 status yields a
Failure with no message. -/
theorem C6_fetch_failure_behavior :
    (∀ (s : ℕ) (body : Except String (List RawRow)), s ≠ 200 →
      fetch_exoplanet_data (.response s body) = (none, none)) ∧
    (∀ msg, fetch_exoplanet_data (.requestError msg) =
      (none, some ("Error fetching data: " ++ msg))) ∧
    (∀ msg, fetch_exoplanet_data (.response 200 (.error msg)) =
      (none, some ("Error processing data: " ++ msg))) ∧
    (∀ rows, fetch_exoplanet_data (.response 200 (.ok rows)) =
      (some (dropna_fetch rows), none)) := by
  refine ⟨?_, ?_, ?_, ?_⟩ <;> intros <;> simp [fetch_exoplanet_data, *]

/-- Witness for C6 (amended): a 500 status with an unparseable body. -/
theorem C6_fetch_failure_behavior_witness :
    (500 : ℕ) ≠ 200 ∧
      fetch_exoplanet_data (.response 500 (.error "boom")) = (none, none) :=
  ⟨by decide, C6_fetch_failure_behavior.1 500 (.error "boom") (by decide)⟩

/-- C7: with well-formed bounds, the mass/period filter keeps exactly the
rows whose mass and period lie in the closed intervals (as a conjunction),
preserves the input order (the result is a sublist of the input), and when
`min_mass = max_mass` every surviving row has exactly that mass. -/
theorem C7_filter_select (df : List RawRow)
    (min_mass max_mass min_period max_period : ℝ)
    (hm : min_mass ≤ max_mass) (hp : min_period ≤ max_period) :
    (filtered_df df min_mass max_mass min_period max_period).Sublist df ∧
    (∀ (r : RawRow) (mass per : ℝ), r.pl_bmasse = some mass → r.pl_orbper = some per →
      (r ∈ filtered_df df min_mass max_mass min_period max_period ↔
        r ∈ df ∧ min_mass ≤ mass ∧ mass ≤ max_mass ∧
          min_period ≤ per ∧ per ≤ max_period)) ∧
    (min_mass = max_mass →
      ∀ r ∈ filtered_df df min_mass max_mass min_period max_period,
        r.pl_bmasse = some min_mass) := by
  refine ⟨List.filter_sublist df, ?_, ?_⟩
  · intro r mass per h1 h2
    simp [filtered_df, List.mem_filter, nanle, h1, h2, and_assoc]
  · intro heq r hr
    simp only [filtered_df, List.mem_filter, Bool.and_eq_true] at hr
    obtain ⟨-, ⟨⟨⟨hge, hle⟩, -⟩, -⟩⟩ := hr
    cases hmass : r.pl_bmasse with
    | none => rw [hmass] at hge; exact absurd hge (by simp [nanle])
    | some v =>
      rw [hmass] at hge hle
      simp only [nanle, decide_eq_true_eq] at hge hle
      have : v = min_mass := le_antisymm (heq ▸ hle) hge
      rw [this]

/-- Witness for C7 on a one-row table with bounds `[0, 2] × [0, 20]`. -/
theorem C7_filter_select_witness :
    (0 : ℝ) ≤ 2 ∧ (0 : ℝ) ≤ 20 ∧
      (rowNoTeff ∈ filtered_df [rowNoTeff] 0 2 0 20 ↔
        rowNoTeff ∈ [rowNoTeff] ∧ (0 : ℝ) ≤ 1 ∧ (1 : ℝ) ≤ 2 ∧
          (0 : ℝ) ≤ 10 ∧ (10 : ℝ) ≤ 20) :=
  ⟨by norm_num, by norm_num,
    (C7_filter_select [rowNoTeff] 0 2 0 20 (by norm_num) (by norm_num)).2.1
      rowNoTeff 1 10 rfl rfl⟩

/-- C9: for rows whose stellar temperature and semi-major axis are
present, habitable-zone membership is exactly the inclusive-bounds
comparison `innerAU ≤ semiMajorAxisAU ≤ outerAU` against
`habitableZone(st_teff)`; and the habitable view is filtered from the
fetched table by that membership flag alone — no mass/period criterion
appears in it. -/
theorem C9_hz_membership :
    (∀ (r : RawRow) (t aa : ℝ), r.st_teff = some t → r.pl_orbsmax = some aa →
      (in_hz r = true ↔
        (calculate_habitable_zone t).1 ≤ aa ∧ aa ≤ (calculate_habitable_zone t).2)) ∧
    (∀ (df : List RawRow) (r : RawRow),
      r ∈ habitable_exoplanets df ↔ r ∈ df ∧ in_hz r = true) := by
  constructor
  · intro r t aa h1 h2
    simp [in_hz, hz_of, h1, h2, nanle]
  · intro df r
    simp [habitable_exoplanets, List.mem_filter]

/-- Witness for C9 at the Earth-Sun-like row. -/
theorem C9_hz_membership_witness :
    in_hz rowSunlike = true ↔
      (calculate_habitable_zone 5778).1 ≤ 1 ∧ 1 ≤ (calculate_habitable_zone 5778).2 :=
  C9_hz_membership.1 rowSunlike 5778 1 rfl rfl

/-- C10: a row with a missing (NaN) stellar temperature but the four
ingestion-required fields present survives ingestion, gets NaN
habitable-zone boundaries, has a false membership flag, and therefore
never appears in the habitable-zone view. -/
theorem C10_missing_teff_safe (r : RawRow) (hteff : r.st_teff = none)
    (hm : r.pl_bmasse.isSome) (hp : r.pl_orbper.isSome)
    (hs : r.pl_orbsmax.isSome) (hM : r.st_mass.isSome) :
    (∀ rows : List RawRow, r ∈ rows → r ∈ dropna_fetch rows) ∧
    hz_of r = (none, none) ∧
    in_hz r = false ∧
    (∀ rows : List RawRow, r ∉ habitable_exoplanets rows) := by
  have hz : hz_of r = (none, none) := by simp [hz_of, hteff]
  have hflag : in_hz r = false := by simp [in_hz, hz, nanle]
  refine ⟨?_, hz, hflag, ?_⟩
  · intro rows hr
    simp [dropna_fetch, List.mem_filter, hr, hm, hp, hs, hM]
  · intro rows hmem
    rw [habitable_exoplanets, List.mem_filter] at hmem
    rw [hflag] at hmem
    exact absurd hmem.2 (by simp)

/-- Witness for C10 at the concrete row missing `st_teff`. -/
theorem C10_missing_teff_safe_witness :
    hz_of rowNoTeff = (none, none) ∧ in_hz rowNoTeff = false ∧
      rowNoTeff ∉ habitable_exoplanets [rowNoTeff] :=
  have h := C10_missing_teff_safe rowNoTeff rfl (by simp [rowNoTeff])
    (by simp [rowNoTeff]) (by simp [rowNoTeff]) (by simp [rowNoTeff])
  ⟨h.2.1, h.2.2.1, h.2.2.2 [rowNoTeff]⟩

end Exoplanet
